import Mathlib

/-!
Verification of the locale routing and translation design of the
next-js-Template repository.  The definitions below shallowly embed the
TypeScript sources: the locale layout (src/app/[locale]/layout.tsx), the
static-params generator, the home page, and the pass-through localized
link component.  Pieces of the design that the snapshot documents but does
not ship as code (the routing configuration module, the middleware locale
negotiation, the translation resolver of the next-intl library, and the
path prefixing of the library Link) are modelled from the specification
and marked as such in their doc comments.
-/

namespace NextTemplate

/-- Modelled from the spec: the statically declared routing configuration
(the module src/i18n/routing.ts is imported by layout.tsx but is absent
from the snapshot).  The README documents the supported locales as
en (English) and ar (Arabic, RTL) with en as the default. -/
structure RoutingConfig where
  locales : List String
  defaultLocale : String
deriving Repr, DecidableEq

/-- Modelled from the spec: the concrete routing value of the template,
with supported locales en and ar and default locale en. -/
def routing : RoutingConfig :=
  { locales := ["en", "ar"], defaultLocale := "en" }

/-- Text direction chosen by LocaleLayout in layout.tsx:
the ternary on line 42 yields rtl exactly for the locale string ar. -/
def dirOf (locale : String) : String :=
  if locale = "ar" then "rtl" else "ltr"

/-- Observable result of rendering the html document in LocaleLayout:
the lang attribute, the dir attribute, and the locale that was passed to
setRequestLocale before rendering. -/
structure HtmlDoc where
  lang : String
  dir : String
  requestLocaleSet : String
deriving Repr, DecidableEq

/-- Result of the LocaleLayout server component: either the terminal
not-found signal raised by calling notFound, or a rendered document. -/
inductive LayoutResult where
  | notFound : LayoutResult
  | page : HtmlDoc → LayoutResult
deriving Repr, DecidableEq

/-- Embedding of LocaleLayout from src/app/[locale]/layout.tsx: the
incoming locale is checked for membership in routing.locales; a
non-member triggers notFound, a member proceeds to setRequestLocale and
renders the html element with lang set to the locale and dir computed by
the ternary on the locale string. -/
def LocaleLayout (locale : String) : LayoutResult :=
  if routing.locales.contains locale then
    LayoutResult.page { lang := locale, dir := dirOf locale, requestLocaleSet := locale }
  else
    LayoutResult.notFound

/-- Params object produced for one locale by generateStaticParams. -/
structure StaticParam where
  locale : String
deriving Repr, DecidableEq

/-- Embedding of generateStaticParams from layout.tsx: maps each element
of routing.locales to a params object holding that locale. -/
def generateStaticParams : List StaticParam :=
  routing.locales.map (fun locale => { locale := locale })

/-- Observable result of the HomePage server component from
src/app/[locale]/page.tsx: it records the locale handed to
setRequestLocale and the translation namespace requested for rendering. -/
structure HomeDoc where
  requestLocaleSet : String
  translationNamespace : String
deriving Repr, DecidableEq

/-- Result of the HomePage server component: either the terminal
not-found signal or a rendered page. -/
inductive HomeResult where
  | notFound : HomeResult
  | rendered : HomeDoc → HomeResult
deriving Repr, DecidableEq

/-- Embedding of HomePage from src/app/[locale]/page.tsx: it reads the
locale param, calls setRequestLocale with it unconditionally, requests
the hero translations, and renders.  There is no membership check and no
notFound call in its body. -/
def HomePage (locale : String) : HomeResult :=
  HomeResult.rendered { requestLocaleSet := locale, translationNamespace := "hero" }

/-- Props accepted by the library Link component and forwarded by
LocalizedLink: the href path, an optional explicit target locale, and an
optional class string.  The embedding keeps the fields the repository
code actually passes around. -/
structure LinkProps where
  href : String
  locale : Option String
  className : Option String
deriving Repr, DecidableEq

/-- A rendered react element, as far as the link components observe it:
the library Link element with its received props. -/
inductive ReactNode where
  | linkElement : LinkProps → ReactNode
deriving Repr, DecidableEq

/-- The library Link from src/i18n/navigation.ts as the callers see it:
an element carrying exactly the props it receives. -/
def Link (props : LinkProps) : ReactNode :=
  ReactNode.linkElement props

/-- Embedding of LocalizedLink from the components source: it spreads its
props into the library Link and returns that element, adding nothing and
removing nothing. -/
def LocalizedLink (props : LinkProps) : ReactNode :=
  Link props

/-- Modelled from the spec: the locale-prefixed path generation performed
by the library Link (src/i18n/navigation.ts is absent from the
snapshot).  The final path has the target locale as its leading segment;
a path already carrying that prefix passes through unchanged. -/
def localizePath (locale path : String) : String :=
  if ("/" ++ locale).data.isPrefixOf path.data then path
  else "/" ++ locale ++ path

/-- A message bundle: a finite mapping from dot-delimited key paths to
translated strings, looked up by exact key equality. -/
def Bundle := List (String × String)

/-- Modelled from the spec: the translation resolver provided by the
next-intl library (not present under src).  Resolution order: exact
match in the bundle of the requested locale, then exact match in the
bundle of the default locale, then the key path itself verbatim.  It is
a total function and never raises an error. -/
def resolve (bundles : String → Bundle) (defaultLocale : String)
    (locale : String) (keyPath : String) : String :=
  match List.lookup keyPath (bundles locale) with
  | some v => v
  | none =>
    match List.lookup keyPath (bundles defaultLocale) with
    | some v => v
    | none => keyPath

/-- The bundle assignment of the concrete scenario in the spec: the en
bundle holds hero.title mapped to Welcome, the ar bundle is empty, and
every other locale tag has no bundle. -/
def scenarioBundles : String → Bundle :=
  fun locale => if locale = "en" then [("hero.title", "Welcome")] else []

/-- Modelled from the spec: the candidate signals consumed by the locale
router of the middleware (the middleware-utils package is documented in
the snapshot but its code is absent): the URL path segment, the
persisted preference cookie, and the client language header given as an
ordered preference list. -/
structure RouterSignals where
  urlLocale : Option String
  cookieLocale : Option String
  headerLocales : List String
deriving Repr, DecidableEq

/-- Outcome of the locale router: either the terminal not-found
condition, or exactly one active locale. -/
inductive RouteOutcome where
  | notFound : RouteOutcome
  | active : String → RouteOutcome
deriving Repr, DecidableEq

/-- Modelled from the spec: header negotiation picks the first
client-advertised language that is a member of the supported set. -/
def negotiateHeader (supported : List String) (prefs : List String) : Option String :=
  prefs.find? (fun l => supported.contains l)

/-- Modelled from the spec: the header and default tail of the precedence
chain, consulted only when neither the URL segment nor the cookie
settles the locale. -/
def headerOrDefault (cfg : RoutingConfig) (s : RouterSignals) : RouteOutcome :=
  match negotiateHeader cfg.locales s.headerLocales with
  | some h => RouteOutcome.active h
  | none => RouteOutcome.active cfg.defaultLocale

/-- Modelled from the spec: the locale router of the middleware.  Fixed
precedence: explicit URL segment first (an unsupported URL locale is the
terminal not-found condition, never a silent default), then a stored
cookie naming a supported locale, then header negotiation against the
supported set, then the static default. -/
def resolveLocale (cfg : RoutingConfig) (s : RouterSignals) : RouteOutcome :=
  match s.urlLocale with
  | some u =>
    if cfg.locales.contains u then RouteOutcome.active u
    else RouteOutcome.notFound
  | none =>
    match s.cookieLocale with
    | some c =>
      if cfg.locales.contains c then RouteOutcome.active c
      else headerOrDefault cfg s
    | none => headerOrDefault cfg s

lemma data_isPrefixOf_append (l t : List Char) : l.isPrefixOf (l ++ t) = true := by
  induction l with
  | nil => simp [List.isPrefixOf]
  | cons a l ih => simp [List.isPrefixOf, ih]

lemma data_append_append (s t u : String) : (s ++ t ++ u).data = (s ++ t).data ++ u.data :=
  String.data_append (s ++ t) u

lemma localizePath_starts (locale path : String) :
    ("/" ++ locale).data.isPrefixOf (localizePath locale path).data = true := by
  unfold localizePath
  by_cases h : ("/" ++ locale).data.isPrefixOf path.data = true
  · rw [if_pos h]
    exact h
  · rw [if_neg h, data_append_append]
    exact data_isPrefixOf_append _ _

lemma localizePath_eq_self_of_starts (locale path : String)
    (h : ("/" ++ locale).data.isPrefixOf path.data = true) :
    localizePath locale path = path := by
  unfold localizePath
  rw [if_pos h]

lemma contains_of_mem {l : List String} {a : String} (h : a ∈ l) :
    l.contains a = true := by
  simpa using h

/-- C1: for every URL locale segment outside routing.locales, LocaleLayout
signals the terminal not-found condition, and the locale router yields
not-found for any signal set carrying that URL segment, never a silently
substituted default. -/
theorem C1_unsupported_locale_notFound (locale : String)
    (h : locale ∉ routing.locales) :
    LocaleLayout locale = LayoutResult.notFound ∧
    ∀ s : RouterSignals, s.urlLocale = some locale →
      resolveLocale routing s = RouteOutcome.notFound := by
  constructor
  · unfold LocaleLayout
    rw [if_neg]
    simpa using h
  · intro s hs
    unfold resolveLocale
    rw [hs]
    simp [h]

/-- Witness for C1 at the unsupported locale fr of the spec scenario for
the request path /fr/about. -/
theorem C1_unsupported_locale_notFound_witness :
    LocaleLayout "fr" = LayoutResult.notFound ∧
    resolveLocale routing
      { urlLocale := some "fr", cookieLocale := none, headerLocales := [] } =
      RouteOutcome.notFound := by
  have h := C1_unsupported_locale_notFound "fr" (by decide)
  exact ⟨h.1, h.2 _ rfl⟩

/-- C2: resolve returns the exact match in the bundle of the requested
locale when present, else the exact match in the default bundle, else
the key path verbatim; on the concrete scenario bundles, resolving
hero.title for ar yields Welcome and resolving nav.contact yields
nav.contact. -/
theorem C2_resolve_fallback_chain (bundles : String → Bundle)
    (dl loc k : String) :
    (∀ v, List.lookup k (bundles loc) = some v →
      resolve bundles dl loc k = v) ∧
    (List.lookup k (bundles loc) = none →
      ∀ v, List.lookup k (bundles dl) = some v →
        resolve bundles dl loc k = v) ∧
    (List.lookup k (bundles loc) = none →
      List.lookup k (bundles dl) = none →
        resolve bundles dl loc k = k) ∧
    resolve scenarioBundles "en" "ar" "hero.title" = "Welcome" ∧
    resolve scenarioBundles "en" "ar" "nav.contact" = "nav.contact" := by
  refine ⟨?_, ?_, ?_, by decide, by decide⟩
  · intro v hv
    unfold resolve
    rw [hv]
  · intro hnone v hv
    unfold resolve
    rw [hnone, hv]
  · intro hnone hdnone
    unfold resolve
    rw [hnone, hdnone]

/-- Witness for C2 at the concrete scenario bundles, discharging the
lookup hypotheses of the default-fallback and verbatim-fallback
clauses. -/
theorem C2_resolve_fallback_chain_witness :
    resolve scenarioBundles "en" "ar" "hero.title" = "Welcome" ∧
    resolve scenarioBundles "en" "ar" "nav.contact" = "nav.contact" := by
  refine ⟨?_, ?_⟩
  · exact (C2_resolve_fallback_chain scenarioBundles "en" "ar" "hero.title").2.1
      (by decide) "Welcome" (by decide)
  · exact (C2_resolve_fallback_chain scenarioBundles "en" "ar" "nav.contact").2.2.1
      (by decide) (by decide)

/-- C3: the locale router follows the fixed precedence URL segment, then
cookie, then header negotiation, then static default; in particular with
no URL segment and a supported cookie locale, the router yields the
cookie locale and its result does not depend on the header signal. -/
theorem C3_router_precedence (u c : String)
    (hu : u ∈ routing.locales) (hc : c ∈ routing.locales)
    (cookie : Option String) (hdr hdr2 : List String) :
    resolveLocale routing
      { urlLocale := some u, cookieLocale := cookie, headerLocales := hdr } =
      RouteOutcome.active u ∧
    (resolveLocale routing
      { urlLocale := none, cookieLocale := some c, headerLocales := hdr } =
      RouteOutcome.active c ∧
     resolveLocale routing
      { urlLocale := none, cookieLocale := some c, headerLocales := hdr } =
     resolveLocale routing
      { urlLocale := none, cookieLocale := some c, headerLocales := hdr2 }) ∧
    (∀ h, negotiateHeader routing.locales hdr = some h →
      resolveLocale routing
        { urlLocale := none, cookieLocale := none, headerLocales := hdr } =
        RouteOutcome.active h) ∧
    (negotiateHeader routing.locales hdr = none →
      resolveLocale routing
        { urlLocale := none, cookieLocale := none, headerLocales := hdr } =
        RouteOutcome.active routing.defaultLocale) := by
  refine ⟨?_, ⟨?_, ?_⟩, ?_, ?_⟩
  · unfold resolveLocale
    simp [hu]
  · unfold resolveLocale
    simp [hc]
  · unfold resolveLocale
    simp [hc]
  · intro h hh
    unfold resolveLocale headerOrDefault
    rw [hh]
  · intro hh
    unfold resolveLocale headerOrDefault
    rw [hh]

/-- Witness for C3: the spec scenario with no URL segment and cookie ar,
checked against two different header signals, plus the header and
default clauses at concrete inputs. -/
theorem C3_router_precedence_witness :
    resolveLocale routing
      { urlLocale := none, cookieLocale := some "ar", headerLocales := ["en"] } =
      RouteOutcome.active "ar" ∧
    resolveLocale routing
      { urlLocale := none, cookieLocale := some "ar", headerLocales := ["en"] } =
    resolveLocale routing
      { urlLocale := none, cookieLocale := some "ar", headerLocales := [] } ∧
    resolveLocale routing
      { urlLocale := none, cookieLocale := none, headerLocales := ["fr", "ar"] } =
      RouteOutcome.active "ar" ∧
    resolveLocale routing
      { urlLocale := none, cookieLocale := none, headerLocales := [] } =
      RouteOutcome.active "en" := by
  have h := C3_router_precedence "en" "ar" (by decide) (by decide)
    none ["en"] []
  have h2 := C3_router_precedence "en" "ar" (by decide) (by decide)
    none ["fr", "ar"] []
  have h3 := C3_router_precedence "en" "ar" (by decide) (by decide)
    none [] []
  exact ⟨h.2.1.1, h.2.1.2, h2.2.2.1 "ar" (by decide), h3.2.2.2 (by decide)⟩

/-- C4: locale-prefixed link generation is idempotent, and a path already
carrying the locale prefix passes through unchanged, so no doubled
prefix is ever produced. -/
theorem C4_localizePath_idempotent (locale path : String) :
    localizePath locale (localizePath locale path) = localizePath locale path ∧
    (("/" ++ locale).data.isPrefixOf path.data = true →
      localizePath locale path = path) :=
  ⟨localizePath_eq_self_of_starts locale (localizePath locale path)
      (localizePath_starts locale path),
   fun h => localizePath_eq_self_of_starts locale path h⟩

/-- Witness for C4 at locale ar and the already-prefixed path /ar/about:
generating again leaves the path unchanged. -/
theorem C4_localizePath_idempotent_witness :
    localizePath "ar" (localizePath "ar" "/about") = localizePath "ar" "/about" ∧
    localizePath "ar" "/ar/about" = "/ar/about" :=
  ⟨(C4_localizePath_idempotent "ar" "/about").1,
   (C4_localizePath_idempotent "ar" "/ar/about").2 (by decide)⟩

/-- C5: LocalizedLink is a pure pass-through: for every props value it
renders exactly the library Link element with the props unchanged. -/
theorem C5_localizedLink_pass_through (props : LinkProps) :
    LocalizedLink props = Link props ∧
    LocalizedLink props = ReactNode.linkElement props :=
  ⟨rfl, rfl⟩

/-- C6: for every supported locale, LocaleLayout renders the document
with lang equal to the locale and dir computed by dirOf; dir is rtl
exactly when the locale is ar and ltr otherwise; and at least one
supported locale is right-to-left. -/
theorem C6_lang_dir (locale : String) (h : locale ∈ routing.locales) :
    LocaleLayout locale =
      LayoutResult.page
        { lang := locale, dir := dirOf locale, requestLocaleSet := locale } ∧
    (dirOf locale = "rtl" ↔ locale = "ar") ∧
    (locale ≠ "ar" → dirOf locale = "ltr") ∧
    (∃ l, l ∈ routing.locales ∧ dirOf l = "rtl") := by
  refine ⟨?_, ?_, ?_, ⟨"ar", by decide, by decide⟩⟩
  · unfold LocaleLayout
    rw [if_pos (contains_of_mem h)]
  · unfold dirOf
    by_cases ha : locale = "ar" <;> simp [ha]
  · intro ha
    unfold dirOf
    rw [if_neg ha]

/-- Witness for C6 at the supported rtl locale ar. -/
theorem C6_lang_dir_witness :
    LocaleLayout "ar" =
      LayoutResult.page { lang := "ar", dir := "rtl", requestLocaleSet := "ar" } := by
  have h := (C6_lang_dir "ar" (by decide)).1
  simpa [dirOf] using h

/-- C7: in the statically declared configuration exactly one supported
locale is the default: the default locale is a member of the supported
set and exactly one member equals it. -/
theorem C7_unique_default :
    routing.defaultLocale ∈ routing.locales ∧
    (routing.locales.filter (fun l => l == routing.defaultLocale)).length = 1 := by
  decide

/-- C8: generateStaticParams is exactly the supported locale list mapped
to params objects, in order: projecting the locale field back recovers
routing.locales, and the concrete value is the en and ar params. -/
theorem C8_static_params :
    generateStaticParams = routing.locales.map (fun l => { locale := l }) ∧
    generateStaticParams.map StaticParam.locale = routing.locales ∧
    generateStaticParams = [{ locale := "en" }, { locale := "ar" }] :=
  ⟨rfl, rfl, rfl⟩

/-- C9: for every member of routing.locales the not-found branch of
LocaleLayout is unreachable: the membership check succeeds and the
layout renders the page. -/
theorem C9_supported_locale_renders (locale : String)
    (h : locale ∈ routing.locales) :
    LocaleLayout locale ≠ LayoutResult.notFound ∧
    LocaleLayout locale =
      LayoutResult.page
        { lang := locale, dir := dirOf locale, requestLocaleSet := locale } := by
  have hp : LocaleLayout locale =
      LayoutResult.page
        { lang := locale, dir := dirOf locale, requestLocaleSet := locale } := by
    unfold LocaleLayout
    rw [if_pos (contains_of_mem h)]
  refine ⟨?_, hp⟩
  rw [hp]
  intro hcontra
  exact LayoutResult.noConfusion hcontra

/-- Witness for C9 at the supported locale en. -/
theorem C9_supported_locale_renders_witness :
    LocaleLayout "en" ≠ LayoutResult.notFound := by
  exact (C9_supported_locale_renders "en" (by decide)).1

/-- C10: HomePage performs no locale validation: for every locale string,
supported or not, it passes the locale to setRequestLocale and renders
the hero page, never signaling not-found. -/
theorem C10_homePage_no_validation (locale : String) :
    HomePage locale ≠ HomeResult.notFound ∧
    HomePage locale =
      HomeResult.rendered
        { requestLocaleSet := locale, translationNamespace := "hero" } := by
  refine ⟨?_, rfl⟩
  intro hcontra
  exact HomeResult.noConfusion hcontra

end NextTemplate
